import Mathlib

/-!
Verification of the whizzer RPC core (`whizzer/rpc.py`, `whizzer/client.py`)
against its natural-language specification.

The embedding is shallow: Python objects become Lean structures, mutation
becomes explicit state passing, Python exceptions become `Except PyErr`.
Object identity, where it matters (Future objects, Dispatch objects,
protocol objects), is modelled by a heap: a list indexed by allocation
order, so a fresh allocation is always at a fresh index.

`whizzer/futures.py` is not part of the sources; its `Future` API
(`set_result`, `set_exception`, `result`, `exception`, `cancelled`,
`add_done_callback`) is modelled from the spec (§3, §4.1): a
single-assignment cell that is pending, a result, a failure, or cancelled,
where a second terminal write raises AlreadyCalled (Cancelled after a
cancel).
-/

namespace Whizzer

/-- Python exception kinds reachable in the modelled code paths. -/
inductive PyErr where
  /-- `RPCError`, defined in `rpc.py`. -/
  | rpcError
  /-- `KeyError`: a dict lookup miss (`self.methods[method]`, `self.requests[request]`). -/
  | keyError
  /-- `IndexError`: a list index out of range (`self.protocols[conn_number]`). -/
  | indexError
  /-- `AttributeError`: attribute access on `None`. -/
  | attributeError
  /-- Any other exception raised by an application handler, with its message. -/
  | exc (msg : String)
  /-- Modelled from the spec: *AlreadyCalled*, second terminal write to a Future. -/
  | alreadyCalled
  /-- Modelled from the spec: *Cancelled*, a terminal write to a cancelled Future. -/
  | cancelledError
  /-- Modelled from the spec: *ConnectionLost*, failing in-flight Futures at close. -/
  | connectionLost
  deriving DecidableEq, Repr

/-- Python values that travel through the RPC layer: frame payload slots,
handler arguments and results.  Method names and argument lists are carried
in the frame constructors directly, so scalar values suffice here.
`proxyObj` stands for the (unique per protocol) proxy object that
`connection_made` builds and with which the proxy futures are resolved. -/
inductive PyVal where
  | none
  | bool (b : Bool)
  | int (n : Int)
  | str (s : String)
  /-- An exception object used as a payload (marshal sends the caught error). -/
  | err (e : PyErr)
  /-- The protocol's proxy object, opaque at this level. -/
  | proxyObj
  deriving DecidableEq, Repr

/-- Python truthiness of a value (`if error:` style tests). -/
def PyVal.truthy : PyVal → Bool
  | .none => false
  | .bool b => b
  | .int n => n != 0
  | .str s => s != ""
  | .err _ => true
  | .proxyObj => true

/-- Modelled from the spec (§3): the state of a Future
(`whizzer/futures.py` is absent from the sources): a single-assignment
cell that is *pending*, *result(v)*, *failure(e)* or *cancelled*. -/
inductive FutureState where
  | pending
  | result (v : PyVal)
  | failure (e : PyVal)
  | cancelled
  deriving DecidableEq, Repr

/-- `future.cancelled()`. -/
def FutureState.isCancelled : FutureState → Bool
  | .cancelled => true
  | _ => false

/-- Modelled from the spec: `future.exception()` — the stored failure, a
*Cancelled* error after a cancel, `None` (here `Option.none`) otherwise. -/
def FutureState.exception : FutureState → Option PyVal
  | .failure e => some e
  | .cancelled => some (.err .cancelledError)
  | _ => Option.none

/-- The heap of Future objects: a Future is named by its allocation index. -/
abbrev FutureHeap := List FutureState

/-- `Future(loop)`: allocate a fresh pending Future, returning its index.
The index `h.length` is fresh by construction. -/
def futureAlloc (h : FutureHeap) : FutureHeap × Nat :=
  (h ++ [FutureState.pending], h.length)

/-- Modelled from the spec (§4.1): `f.set_result(v)` transitions
pending → result(v); it raises *Cancelled* on a cancelled Future and
*AlreadyCalled* on any other non-pending Future. -/
def setFutureResult (h : FutureHeap) (fid : Nat) (v : PyVal) : Except PyErr FutureHeap :=
  match h[fid]? with
  | some .pending => .ok (h.set fid (.result v))
  | some .cancelled => .error .cancelledError
  | some _ => .error .alreadyCalled
  | Option.none => .error .indexError

/-- Modelled from the spec (§4.1): `f.set_exception(e)`, symmetric to
`setFutureResult`. -/
def setFutureException (h : FutureHeap) (fid : Nat) (e : PyVal) : Except PyErr FutureHeap :=
  match h[fid]? with
  | some .pending => .ok (h.set fid (.failure e))
  | some .cancelled => .error .cancelledError
  | some _ => .error .alreadyCalled
  | Option.none => .error .indexError

/-- Python dict assignment `m[k] = v`: replace the value when the key is
present, else append the new binding. -/
def dictInsert {κ α : Type} [BEq κ] (m : List (κ × α)) (k : κ) (v : α) : List (κ × α) :=
  if m.any (fun c => c.1 == k) then
    m.map (fun c => if c.1 == k then (k, v) else c)
  else
    m ++ [(k, v)]

/-- Python `del m[k]` after a successful lookup of `k`. -/
def dictDel {κ α : Type} [BEq κ] (m : List (κ × α)) (k : κ) : List (κ × α) :=
  m.filter (fun c => !(c.1 == k))

/-- The result of a dispatched handler: a plain value, or a Future
(named by its heap index) that the protocol will observe via a done
callback. -/
inductive CallResult where
  | value (v : PyVal)
  | future (fid : Nat)
  deriving DecidableEq, Repr

/-- A registered handler: Python callables may return a value, return a
Future, or raise. -/
abbrev Handler := List PyVal → Except PyErr CallResult

/-- `Dispatch`: the basic method dispatcher of `rpc.py`, a dict from
method name to callable. -/
structure Dispatch where
  methods : List (String × Handler)

/-- `Dispatch.call(method, args)`: `self.methods[method](*args)` — a miss
raises `KeyError`, then the handler runs and may itself raise. -/
def Dispatch.call (d : Dispatch) (method : String) (args : List PyVal) :
    Except PyErr CallResult :=
  match d.methods.lookup method with
  | some fn => fn args
  | Option.none => .error .keyError

/-- `Dispatch.add(fn, name)`: `self.methods[name] = fn`. -/
def Dispatch.add (d : Dispatch) (fn : Handler) (name : String) : Dispatch :=
  ⟨dictInsert d.methods name fn⟩

/-- A decoded marshal-codec message, the 4-tuple
`(is_result, request_id | None, a, b)` of §4.2 after shaping:
`response` is a frame whose first slot is true (`a` = error slot,
`b` = result slot), `call` one whose first slot is false (`request = none`
makes it a notify). -/
inductive MarshalMsg where
  | response (request : Option Nat) (errSlot : PyVal) (resSlot : PyVal)
  | call (request : Option Nat) (method : String) (args : List PyVal)
  deriving DecidableEq, Repr

/-- A MessagePack-RPC frame: `[0, msgid, method, params]`,
`[1, msgid, error, result]`, `[2, method, params]`. -/
inductive MsgPackFrame where
  | request (msgid : Nat) (method : String) (params : List PyVal)
  | response (msgid : Nat) (error : PyVal) (result : PyVal)
  | notify (method : String) (params : List PyVal)
  deriving DecidableEq, Repr

/-- `MarshalRPCProxy`: per-connection outbound-call state.  `requests`
maps a request id to the in-flight Future (by heap index).  The `loop` and
`protocol` references and the unused `calls` set are omitted: sending is
modelled by returning the frames written. -/
structure MarshalRPCProxy where
  request_num : Nat
  requests : List (Nat × Nat)
  timeout : Option Nat
  deriving DecidableEq, Repr

/-- `MarshalRPCProxy.begin_call(method, *args)`: allocate a Future, give
it the next request number, record it in `requests`, and send a
`(False, id, method, args)` frame.  Returns the heap, the proxy, the frames
written and the Future's index. -/
def MarshalRPCProxy.begin_call (h : FutureHeap) (p : MarshalRPCProxy)
    (method : String) (args : List PyVal) :
    FutureHeap × MarshalRPCProxy × List MarshalMsg × Nat :=
  let (h, fid) := futureAlloc h
  let req := p.request_num
  let p := { p with
    request_num := req + 1,
    requests := dictInsert p.requests req fid }
  (h, p, [MarshalMsg.call (some req) method args], fid)

/-- `MarshalRPCProxy.begin_notify(method, *args)`: allocate a Future,
advance `request_num` (the `f.request` attribute it feeds is never used on
this path), send a `(False, None, method, args)` frame, then resolve the
Future with `None`.  Nothing is recorded in `requests`. -/
def MarshalRPCProxy.begin_notify (h : FutureHeap) (p : MarshalRPCProxy)
    (method : String) (args : List PyVal) :
    Except PyErr (FutureHeap × MarshalRPCProxy × List MarshalMsg × Nat) :=
  let (h, fid) := futureAlloc h
  let p := { p with request_num := p.request_num + 1 }
  let out := [MarshalMsg.call Option.none method args]
  match setFutureResult h fid PyVal.none with
  | .error e => .error e
  | .ok h => .ok (h, p, out, fid)

/-- `MarshalRPCProxy.results(msg)`: on an inbound result frame, look up
`self.requests[request]` (a miss — a `None` id included — raises
`KeyError`), resolve the Future with the result or fail it with a fresh
`RPCError()`, then `del self.requests[request]`. -/
def MarshalRPCProxy.results (h : FutureHeap) (p : MarshalRPCProxy)
    (request : Option Nat) (errSlot : PyVal) (resSlot : PyVal) :
    Except PyErr (FutureHeap × MarshalRPCProxy) :=
  match request.bind (fun r => (p.requests.lookup r).map (fun fid => (r, fid))) with
  | Option.none => .error .keyError
  | some (r, fid) =>
    let write :=
      if !errSlot.truthy then setFutureResult h fid resSlot
      else setFutureException h fid (.err .rpcError)
    match write with
    | .error e => .error e
    | .ok h => .ok (h, { p with requests := dictDel p.requests r })

/-- `MsgPackProxy`: same per-connection outbound state as the marshal
variant. -/
structure MsgPackProxy where
  request_num : Nat
  requests : List (Nat × Nat)
  timeout : Option Nat
  deriving DecidableEq, Repr

/-- `MsgPackProxy.notify(method, *args)`: `self.protocol.send_notification`
— one `[2, method, params]` frame, no other effect on the proxy. -/
def MsgPackProxy.notify (p : MsgPackProxy) (method : String) (args : List PyVal) :
    MsgPackProxy × List MsgPackFrame :=
  (p, [MsgPackFrame.notify method args])

/-- `MsgPackProxy.begin_call(method, *args)`: allocate a Future, give it
the next request number, record it, and send a `[0, msgid, method, params]`
frame. -/
def MsgPackProxy.begin_call (h : FutureHeap) (p : MsgPackProxy)
    (method : String) (args : List PyVal) :
    FutureHeap × MsgPackProxy × List MsgPackFrame × Nat :=
  let (h, fid) := futureAlloc h
  let req := p.request_num
  let p := { p with
    request_num := req + 1,
    requests := dictInsert p.requests req fid }
  (h, p, [MsgPackFrame.request req method args], fid)

/-- `MsgPackProxy.response(msgid, error, result)`: look up
`self.requests[msgid]` (a miss raises `KeyError`), fail the Future with the
error payload if it is truthy, else resolve it with the result, then
`del self.requests[msgid]`. -/
def MsgPackProxy.response (h : FutureHeap) (p : MsgPackProxy)
    (msgid : Nat) (error : PyVal) (result : PyVal) :
    Except PyErr (FutureHeap × MsgPackProxy) :=
  match p.requests.lookup msgid with
  | Option.none => .error .keyError
  | some fid =>
    let write :=
      if error.truthy then setFutureException h fid error
      else setFutureResult h fid result
    match write with
    | .error e => .error e
    | .ok h => .ok (h, { p with requests := dictDel p.requests msgid })

/-- `MarshalRPCProtocol` state.  `factoryRef` records whether
`self.factory` still holds the factory (it is set to `None` on connection
loss); the `loop` handle and the inherited framing buffer are not needed by
the modelled operations. -/
structure MarshalRPCProtocol where
  factoryRef : Bool
  dispatch : Dispatch
  proxyObj : Option MarshalRPCProxy
  proxy_futures : List Nat

/-- `MarshalRPCProtocol._send_results(request, iserror, results)`:
`(True, request, results, None)` on error, `(True, request, None, results)`
on success. -/
def MarshalRPCProtocol.send_results (request : Nat) (iserror : Bool)
    (results : PyVal) : MarshalMsg :=
  if iserror then MarshalMsg.response (some request) results PyVal.none
  else MarshalMsg.response (some request) PyVal.none results

/-- `MarshalRPCProtocol.connection_made()`: build a fresh
`MarshalRPCProxy` and resolve every Future in `self._proxy_futures` with
it, in list order (each `set_result` raises if its Future is no longer
pending). -/
def MarshalRPCProtocol.connection_made (h : FutureHeap) (s : MarshalRPCProtocol) :
    Except PyErr (FutureHeap × MarshalRPCProtocol) := do
  let s := { s with proxyObj := some ⟨0, [], Option.none⟩ }
  let h ← s.proxy_futures.foldlM (fun h fid => setFutureResult h fid PyVal.proxyObj) h
  return (h, s)

/-- `MarshalRPCProtocol.proxy()`: allocate a Future, append it to
`self._proxy_futures` unconditionally, and resolve it at once when
`self._proxy` is already set. -/
def MarshalRPCProtocol.proxy (h : FutureHeap) (s : MarshalRPCProtocol) :
    Except PyErr (FutureHeap × MarshalRPCProtocol × Nat) := do
  let (h, fid) := futureAlloc h
  let s := { s with proxy_futures := s.proxy_futures ++ [fid] }
  match s.proxyObj with
  | some _ => do
    let h ← setFutureResult h fid PyVal.proxyObj
    return (h, s, fid)
  | Option.none => return (h, s, fid)

/-- `MarshalRPCProtocol.message(message)`: demultiplex one decoded frame.
A result frame goes to `self._proxy.results`.  Otherwise
`self.dispatch.call(method, args)` runs under `try/except RPCError` — only
`RPCError` is caught (any other exception propagates out of the handler);
then, when the frame carries a request id, a returned Future gets the
done callback attached (recorded as a `(request, future)` pair in the last
component) and any other outcome is answered with `_send_results`. -/
def MarshalRPCProtocol.message (h : FutureHeap) (s : MarshalRPCProtocol)
    (msg : MarshalMsg) :
    Except PyErr (FutureHeap × MarshalRPCProtocol × List MarshalMsg × List (Nat × Nat)) :=
  match msg with
  | .response request errSlot resSlot =>
    match s.proxyObj with
    | Option.none => .error .attributeError
    | some p =>
      match MarshalRPCProxy.results h p request errSlot resSlot with
      | .error e => .error e
      | .ok (h, p) => .ok (h, { s with proxyObj := some p }, [], [])
  | .call request method args =>
    match s.dispatch.call method args with
    | .error .rpcError =>
      match request with
      | some rid => .ok (h, s, [MarshalRPCProtocol.send_results rid true (.err .rpcError)], [])
      | Option.none => .ok (h, s, [], [])
    | .error e => .error e
    | .ok (.future fid) =>
      match request with
      | some rid => .ok (h, s, [], [(rid, fid)])
      | Option.none => .ok (h, s, [], [])
    | .ok (.value v) =>
      match request with
      | some rid => .ok (h, s, [MarshalRPCProtocol.send_results rid false v], [])
      | Option.none => .ok (h, s, [], [])

/-- `MarshalRPCProtocol._result_done(future)`: the done callback of a
dispatched call that returned a Future — answer with an error frame when
`future.exception()` is set, else with the result. -/
def MarshalRPCProtocol.result_done (request : Nat) (fs : FutureState) :
    List MarshalMsg :=
  match fs.exception with
  | some e => [MarshalRPCProtocol.send_results request true e]
  | Option.none =>
    match fs with
    | .result v => [MarshalRPCProtocol.send_results request false v]
    | _ => []

/-- `MsgPackProtocol` state, the exact analogue of the marshal variant
(the `handlers` table and the streaming unpacker are the frame
demultiplexer, already captured by the shaped `MsgPackFrame`). -/
structure MsgPackProtocol where
  factoryRef : Bool
  dispatch : Dispatch
  proxyObj : Option MsgPackProxy
  proxy_futures : List Nat

/-- `MsgPackProtocol.connection_made()`. -/
def MsgPackProtocol.connection_made (h : FutureHeap) (s : MsgPackProtocol) :
    Except PyErr (FutureHeap × MsgPackProtocol) := do
  let s := { s with proxyObj := some ⟨0, [], Option.none⟩ }
  let h ← s.proxy_futures.foldlM (fun h fid => setFutureResult h fid PyVal.proxyObj) h
  return (h, s)

/-- `MsgPackProtocol.proxy()`. -/
def MsgPackProtocol.proxy (h : FutureHeap) (s : MsgPackProtocol) :
    Except PyErr (FutureHeap × MsgPackProtocol × Nat) := do
  let (h, fid) := futureAlloc h
  let s := { s with proxy_futures := s.proxy_futures ++ [fid] }
  match s.proxyObj with
  | some _ => do
    let h ← setFutureResult h fid PyVal.proxyObj
    return (h, s, fid)
  | Option.none => return (h, s, fid)

/-- `MsgPackProtocol.notify(msgtype, method, params)`: invoke
`self.dispatch.call(method, params)` with no `try` around it — the return
value is dropped, no frame is written, and a raised exception propagates. -/
def MsgPackProtocol.notify (s : MsgPackProtocol) (method : String)
    (params : List PyVal) : Except PyErr (List MsgPackFrame) :=
  match s.dispatch.call method params with
  | .error e => .error e
  | .ok _ => .ok []

/-- `MsgPackProtocol.request(msgtype, msgid, method, params)`: run
`self.dispatch.call(method, params)` under `try/except Exception` (every
exception is caught and turned into the error string `"Exception"`); a
returned Future gets the done callback attached (recorded as a
`(msgid, future)` pair), anything else is answered at once with
`send_response`. -/
def MsgPackProtocol.request (h : FutureHeap) (s : MsgPackProtocol)
    (msgid : Nat) (method : String) (params : List PyVal) :
    FutureHeap × MsgPackProtocol × List MsgPackFrame × List (Nat × Nat) :=
  match s.dispatch.call method params with
  | .error _ => (h, s, [MsgPackFrame.response msgid (.str "Exception") PyVal.none], [])
  | .ok (.future fid) => (h, s, [], [(msgid, fid)])
  | .ok (.value v) => (h, s, [MsgPackFrame.response msgid PyVal.none v], [])

/-- `MsgPackProtocol.response(msgtype, msgid, error, result)`: forward to
`self._proxy.response`. -/
def MsgPackProtocol.response (h : FutureHeap) (s : MsgPackProtocol)
    (msgid : Nat) (error : PyVal) (result : PyVal) :
    Except PyErr (FutureHeap × MsgPackProtocol) :=
  match s.proxyObj with
  | Option.none => .error .attributeError
  | some p =>
    match MsgPackProxy.response h p msgid error result with
    | .error e => .error e
    | .ok (h, p) => .ok (h, { s with proxyObj := some p })

/-- `MsgPackProtocol._result_done(future)`: the done callback of a
dispatched call that returned a Future; it answers only when the Future
was not cancelled. -/
def MsgPackProtocol.result_done (msgid : Nat) (fs : FutureState) :
    List MsgPackFrame :=
  if fs.isCancelled then []
  else
    match fs.exception with
    | some e => [MsgPackFrame.response msgid e PyVal.none]
    | Option.none =>
      match fs with
      | .result v => [MsgPackFrame.response msgid PyVal.none v]
      | _ => []

/-- `RPCProtocolFactory` state: the ordered list of live protocols, each
named by its allocation id (`nextId` models Python object creation); the
`loop`, `dispatch` and `protocol`-class fields play no role in the indexing
behaviour. -/
structure RPCProtocolFactory where
  protocols : List Nat
  nextId : Nat
  deriving DecidableEq, Repr

/-- `RPCProtocolFactory.build()`: construct a fresh protocol object and
append it to `self.protocols`; returns the factory and the new protocol. -/
def RPCProtocolFactory.build (f : RPCProtocolFactory) : RPCProtocolFactory × Nat :=
  ({ protocols := f.protocols ++ [f.nextId], nextId := f.nextId + 1 }, f.nextId)

/-- `RPCProtocolFactory.proxy(conn_number)`: `self.protocols[conn_number]`
— an out-of-range index raises `IndexError`; otherwise the call is
delegated to that protocol's `proxy()`, so the result names the protocol
the factory delegates to. -/
def RPCProtocolFactory.proxy (f : RPCProtocolFactory) (conn_number : Nat) :
    Except PyErr Nat :=
  match f.protocols[conn_number]? with
  | some pid => .ok pid
  | Option.none => .error .indexError

/-- `RPCProtocolFactory.lost_connection(p)`: `self.protocols.remove(p)` —
remove the first occurrence of `p`, shifting every later element down one
index. -/
def RPCProtocolFactory.lost_connection (f : RPCProtocolFactory) (p : Nat) :
    RPCProtocolFactory :=
  { f with protocols := f.protocols.erase p }

/-- `MarshalRPCProtocol.connection_lost(reason)`: print, then
`self.factory.lost_connection(self)` (an `AttributeError` on `None` when
the factory reference is already gone) and `self.factory = None`.  Nothing
else is touched: the Future heap — and with it every in-flight request
Future — is returned unchanged. -/
def MarshalRPCProtocol.connection_lost (h : FutureHeap) (f : RPCProtocolFactory)
    (selfId : Nat) (s : MarshalRPCProtocol) :
    Except PyErr (FutureHeap × RPCProtocolFactory × MarshalRPCProtocol) :=
  if s.factoryRef then
    .ok (h, f.lost_connection selfId, { s with factoryRef := false })
  else .error .attributeError

/-- `MsgPackProtocol.connection_lost(reason)`, identical to the marshal
variant. -/
def MsgPackProtocol.connection_lost (h : FutureHeap) (f : RPCProtocolFactory)
    (selfId : Nat) (s : MsgPackProtocol) :
    Except PyErr (FutureHeap × RPCProtocolFactory × MsgPackProtocol) :=
  if s.factoryRef then
    .ok (h, f.lost_connection selfId, { s with factoryRef := false })
  else .error .attributeError

/-!
Default-argument sharing.  `rpc.py` defines, in this order,

  `MarshalRPCProtocol.__init__(self, loop, factory, dispatch=Dispatch())`
  `MsgPackProtocol.__init__(self, loop, factory, dispatch=Dispatch())`
  `RPCProtocolFactory.__init__(self, loop, dispatch=Dispatch())`

and Python evaluates each `Dispatch()` default once, when the `def` is
executed at module load.  Dispatch objects therefore live in a heap
(indexed by allocation order) and each `__init__` stores a *reference*:
the explicit argument when one is passed, else that class's one shared
default object.
-/

/-- The heap of `Dispatch` objects, indexed by allocation order. -/
abbrev DispatchHeap := List Dispatch

/-- The `Dispatch` heap after `rpc.py` is loaded: the three default
objects, created in class-definition order. -/
def rpcModuleDispatchHeap : DispatchHeap := [⟨[]⟩, ⟨[]⟩, ⟨[]⟩]

/-- The shared default `Dispatch` of `MarshalRPCProtocol.__init__`. -/
def MarshalRPCProtocol.defaultDispatch : Nat := 0

/-- The shared default `Dispatch` of `MsgPackProtocol.__init__`. -/
def MsgPackProtocol.defaultDispatch : Nat := 1

/-- The shared default `Dispatch` of `RPCProtocolFactory.__init__`. -/
def RPCProtocolFactory.defaultDispatch : Nat := 2

/-- The dispatch reference `MarshalRPCProtocol.__init__` stores:
`self.dispatch = dispatch`, where an omitted argument is the shared
default object. -/
def MarshalRPCProtocol.initDispatch (dispatchArg : Option Nat) : Nat :=
  dispatchArg.getD MarshalRPCProtocol.defaultDispatch

/-- The dispatch reference `MsgPackProtocol.__init__` stores. -/
def MsgPackProtocol.initDispatch (dispatchArg : Option Nat) : Nat :=
  dispatchArg.getD MsgPackProtocol.defaultDispatch

/-- The dispatch reference `RPCProtocolFactory.__init__` stores. -/
def RPCProtocolFactory.initDispatch (dispatchArg : Option Nat) : Nat :=
  dispatchArg.getD RPCProtocolFactory.defaultDispatch

/-- `dispatcher.add(fn, name)` through a reference into the heap: mutate
the referenced object in place. -/
def DispatchHeap.add (hp : DispatchHeap) (ref : Nat) (fn : Handler)
    (name : String) : DispatchHeap :=
  match hp[ref]? with
  | some d => hp.set ref (d.add fn name)
  | Option.none => hp

/-- `dispatcher.call(method, args)` through a reference into the heap. -/
def DispatchHeap.call (hp : DispatchHeap) (ref : Nat) (method : String)
    (args : List PyVal) : Except PyErr CallResult :=
  match hp[ref]? with
  | some d => d.call method args
  | Option.none => .error .attributeError

/-- `SocketClient` (`client.py`): only the `connection` attribute matters
for the close path; `__init__` sets it to `None`. -/
structure SocketClient where
  connection : Option Nat
  deriving DecidableEq, Repr

/-- `SocketClient.__init__`: `self.connection = None`. -/
def SocketClient.init : SocketClient := ⟨Option.none⟩

/-- `SocketClient._connect(sock)`: build a protocol and store the fresh
`ClientConnection` (named by an object id). -/
def SocketClient.connect (_ : SocketClient) (connId : Nat) : SocketClient :=
  ⟨some connId⟩

/-- `SocketClient.close()`: `self.connection.close()` — an
`AttributeError` on `None` when there is no connection — then
`self.connection = None`. -/
def SocketClient.close (c : SocketClient) : Except PyErr SocketClient :=
  match c.connection with
  | Option.none => .error .attributeError
  | some _ => .ok ⟨Option.none⟩

/-! Helper lemmas about the heap and dict primitives. -/

/-- Setting the freshly allocated last cell of a heap rewrites just it. -/
theorem set_concat_self {α : Type} (l : List α) (a b : α) :
    (l ++ [a]).set l.length b = l ++ [b] := by
  induction l with
  | nil => rfl
  | cons x xs ih => simp [List.set, ih]

/-- A successful heap read bounds the index. -/
theorem lt_length_of_getElem?_eq_some {α : Type} {l : List α} {i : Nat} {a : α}
    (h : l[i]? = some a) : i < l.length := by
  by_contra hc
  rw [List.getElem?_eq_none (by omega)] at h
  exact Option.noConfusion h

/-- `setFutureResult` on a freshly allocated Future always succeeds. -/
theorem setFutureResult_concat (h : FutureHeap) (v : PyVal) :
    setFutureResult (h ++ [.pending]) h.length v = .ok (h ++ [.result v]) := by
  unfold setFutureResult
  rw [List.getElem?_concat_length, set_concat_self]

/-- After `del m[k]`, looking up `k` misses. -/
theorem lookup_dictDel {α : Type} (m : List (Nat × α)) (k : Nat) :
    (dictDel m k).lookup k = Option.none := by
  induction m with
  | nil => rfl
  | cons c m ih =>
    by_cases hc : c.1 = k
    · simpa [dictDel, hc] using ih
    · have hb : (c.1 == k) = false := by simp [hc]
      have hb' : (k == c.1) = false := by
        simp only [beq_eq_false_iff_ne, ne_eq]
        exact fun hh => hc hh.symm
      simpa [dictDel, hb, List.lookup, hb'] using ih

/-- Resolving a list of distinct pending Futures one after another (the
`connection_made` loop) succeeds, resolves exactly those cells and leaves
every other cell untouched. -/
theorem foldlM_setFutureResult (v : PyVal) (ws : List Nat) :
    ∀ h : FutureHeap, ws.Nodup →
      (∀ fid ∈ ws, h[fid]? = some FutureState.pending) →
      ∃ h' : FutureHeap,
        List.foldlM (fun h fid => setFutureResult h fid v) h ws = .ok h' ∧
        (∀ fid ∈ ws, h'[fid]? = some (FutureState.result v)) ∧
        (∀ j : Nat, j ∉ ws → h'[j]? = h[j]?) := by
  induction ws with
  | nil =>
    intro h _ _
    exact ⟨h, rfl, by simp, fun j _ => rfl⟩
  | cons w ws ih =>
    intro h hnd hp
    have hw : h[w]? = some FutureState.pending := hp w (List.mem_cons_self w ws)
    have hwlt : w < h.length := lt_length_of_getElem?_eq_some hw
    have hset : setFutureResult h w v = .ok (h.set w (.result v)) := by
      unfold setFutureResult
      rw [hw]
    have hwmem : w ∉ ws := (List.nodup_cons.mp hnd).1
    have hp' : ∀ fid ∈ ws, (h.set w (.result v))[fid]? = some FutureState.pending := by
      intro fid hf
      have hne : fid ≠ w := fun hh => hwmem (hh ▸ hf)
      rw [List.getElem?_set_ne (Ne.symm hne)]
      exact hp fid (List.mem_cons_of_mem _ hf)
    obtain ⟨h', he, hres, hunch⟩ := ih (h.set w (.result v)) (List.nodup_cons.mp hnd).2 hp'
    refine ⟨h', ?_, ?_, ?_⟩
    · show (setFutureResult h w v >>= fun h1 =>
        List.foldlM (fun h fid => setFutureResult h fid v) h1 ws) = .ok h'
      rw [hset]
      exact he
    · intro fid hf
      rcases List.mem_cons.mp hf with rfl | hf'
      · rw [hunch fid hwmem, List.getElem?_set_self hwlt]
      · exact hres fid hf'
    · intro j hj
      have hjw : j ≠ w := fun hh => hj (hh ▸ List.mem_cons_self w ws)
      have hjws : j ∉ ws := fun hh => hj (List.mem_cons_of_mem _ hh)
      rw [hunch j hjws, List.getElem?_set_ne (Ne.symm hjw)]

/-! Claim theorems. -/

/-- **C1** (code behaviour at the failing input): with two live
connections, index `1` designates the second protocol; after
`lost_connection` of the first, `self.protocols.remove(p)` shifts the
survivor down, so `proxy(1)` raises `IndexError` and index `0` — which
used to designate the first protocol — now delegates to the second.  This
is the dense removal the spec's design notes flag as a latent bug; the
claimed sparse, index-stable removal does not hold of the code. -/
theorem C1_lost_connection_renumbers :
    ((⟨[], 0⟩ : RPCProtocolFactory).build.1.build.1 = ⟨[0, 1], 2⟩) ∧
    (RPCProtocolFactory.proxy ⟨[0, 1], 2⟩ 0 = .ok 0) ∧
    (RPCProtocolFactory.proxy ⟨[0, 1], 2⟩ 1 = .ok 1) ∧
    (RPCProtocolFactory.lost_connection ⟨[0, 1], 2⟩ 0 = ⟨[1], 2⟩) ∧
    (RPCProtocolFactory.proxy ⟨[1], 2⟩ 1 = .error .indexError) ∧
    (RPCProtocolFactory.proxy ⟨[1], 2⟩ 0 = .ok 1) := by
  exact ⟨rfl, rfl, rfl, rfl, rfl, rfl⟩

/-- **C9**: `MsgPackProtocol._result_done` sends no frame when the
completed Future was cancelled, and sends exactly one response frame for a
result or a failure. -/
theorem C9_result_done_skips_cancelled :
    (∀ msgid : Nat, MsgPackProtocol.result_done msgid .cancelled = []) ∧
    (∀ msgid v, MsgPackProtocol.result_done msgid (.result v) =
      [MsgPackFrame.response msgid PyVal.none v]) ∧
    (∀ msgid e, MsgPackProtocol.result_done msgid (.failure e) =
      [MsgPackFrame.response msgid e PyVal.none]) := by
  exact ⟨fun _ => rfl, fun _ _ => rfl, fun _ _ => rfl⟩

/-- **C10**: `SocketClient.close` is not idempotent: before `connect` it
dereferences `None` (an `AttributeError`); after a successful close the
connection is `None`, so a second close fails the same way instead of
being a no-op. -/
theorem C10_close_not_idempotent :
    (SocketClient.init.close = .error .attributeError) ∧
    (∀ connId : Nat, (SocketClient.init.connect connId).close = .ok ⟨Option.none⟩) ∧
    (∀ connId : Nat,
      (SocketClient.init.connect connId).close.bind SocketClient.close =
        .error .attributeError) := by
  exact ⟨rfl, fun _ => rfl, fun _ => rfl⟩

/-- **C2** is false of the code: a marshal protocol whose proxy has one
in-flight request (id `0` mapped to Future `0`, pending) loses its
connection; `connection_lost` notifies the factory and drops the factory
reference, but the Future heap comes back unchanged — the in-flight Future
is still pending, not failed with a *ConnectionLost* error, so a caller
blocked on it would wait forever. -/
theorem C2_counterexample :
    (MarshalRPCProtocol.connection_lost [FutureState.pending] ⟨[7], 8⟩ 7
        ⟨true, ⟨[]⟩, some ⟨1, [(0, 0)], Option.none⟩, []⟩ =
      .ok ([FutureState.pending], ⟨[], 8⟩,
        ⟨false, ⟨[]⟩, some ⟨1, [(0, 0)], Option.none⟩, []⟩)) ∧
    ([FutureState.pending][0]? = some FutureState.pending) ∧
    (FutureState.pending ≠ FutureState.failure (.err .connectionLost)) := by
  exact ⟨rfl, rfl, by decide⟩

/-- **C2 amended**: on `connection_lost` (both codec variants) the factory
is notified via `lost_connection` and the protocol's factory reference is
dropped, but the in-flight request Futures are not failed: the Future heap
— and the proxy's request map — are left exactly as they were. -/
theorem C2_connection_lost_effect (h : FutureHeap) (f : RPCProtocolFactory)
    (selfId : Nat) (s : MarshalRPCProtocol) (t : MsgPackProtocol)
    (hs : s.factoryRef = true) (ht : t.factoryRef = true) :
    (MarshalRPCProtocol.connection_lost h f selfId s =
      .ok (h, f.lost_connection selfId, { s with factoryRef := false })) ∧
    (MsgPackProtocol.connection_lost h f selfId t =
      .ok (h, f.lost_connection selfId, { t with factoryRef := false })) := by
  constructor
  · unfold MarshalRPCProtocol.connection_lost
    rw [hs]
    rfl
  · unfold MsgPackProtocol.connection_lost
    rw [ht]
    rfl

/-- Witness for **C2 amended** at a concrete input. -/
theorem C2_connection_lost_effect_witness :
    (MarshalRPCProtocol.connection_lost [FutureState.pending] ⟨[3], 4⟩ 3
        ⟨true, ⟨[]⟩, some ⟨1, [(0, 0)], Option.none⟩, []⟩ =
      .ok ([FutureState.pending], RPCProtocolFactory.lost_connection ⟨[3], 4⟩ 3,
        ⟨false, ⟨[]⟩, some ⟨1, [(0, 0)], Option.none⟩, []⟩)) ∧
    (MsgPackProtocol.connection_lost [FutureState.pending] ⟨[3], 4⟩ 3
        ⟨true, ⟨[]⟩, some ⟨1, [(0, 0)], Option.none⟩, []⟩ =
      .ok ([FutureState.pending], RPCProtocolFactory.lost_connection ⟨[3], 4⟩ 3,
        ⟨false, ⟨[]⟩, some ⟨1, [(0, 0)], Option.none⟩, []⟩)) :=
  C2_connection_lost_effect [FutureState.pending] ⟨[3], 4⟩ 3
    ⟨true, ⟨[]⟩, some ⟨1, [(0, 0)], Option.none⟩, []⟩
    ⟨true, ⟨[]⟩, some ⟨1, [(0, 0)], Option.none⟩, []⟩ rfl rfl

/-- **C3** is false of the code for the marshal variant: an inbound
request frame for a method the dispatcher does not know makes
`Dispatch.call` raise `KeyError`, which the `except RPCError` clause does
not catch — `message` raises instead of sending a response-err frame, so
the exception does propagate out of the frame handler. -/
theorem C3_counterexample :
    (MarshalRPCProtocol.message [] ⟨true, ⟨[]⟩, Option.none, []⟩
        (MarshalMsg.call (some 0) "missing" []) = .error .keyError) ∧
    ((MarshalRPCProtocol.message [] ⟨true, ⟨[]⟩, Option.none, []⟩
        (MarshalMsg.call (some 0) "missing" [])).isOk = false) := by
  exact ⟨rfl, rfl⟩

/-- **C3 amended**: when `dispatcher.call` raises on an inbound request
frame, the msgpack variant (`except Exception`) always answers with a
response-err frame carrying the `"Exception"` payload and lets nothing
propagate; the marshal variant catches only `RPCError` — for it a
response-err frame is sent, while any other exception (an unknown-method
`KeyError` included) propagates out of the frame handler with no frame
sent. -/
theorem C3_request_error_paths (h : FutureHeap) (s : MarshalRPCProtocol)
    (t : MsgPackProtocol) (rid msgid : Nat) (method : String)
    (args : List PyVal) (e : PyErr)
    (hm : s.dispatch.call method args = .error e)
    (hp : t.dispatch.call method args = .error e) :
    (MsgPackProtocol.request h t msgid method args =
      (h, t, [MsgPackFrame.response msgid (.str "Exception") PyVal.none], [])) ∧
    (e = .rpcError →
      MarshalRPCProtocol.message h s (MarshalMsg.call (some rid) method args) =
        .ok (h, s, [MarshalRPCProtocol.send_results rid true (.err .rpcError)], [])) ∧
    (e ≠ .rpcError →
      MarshalRPCProtocol.message h s (MarshalMsg.call (some rid) method args) =
        .error e) := by
  refine ⟨?_, ?_, ?_⟩
  · simp only [MsgPackProtocol.request, hp]
  · intro he
    subst he
    simp only [MarshalRPCProtocol.message, hm]
  · intro hne
    simp only [MarshalRPCProtocol.message, hm]

/-- Witness for **C3 amended**: a handler that raises a generic exception
(msgpack answers, marshal propagates) and one that raises `RPCError`
(marshal answers). -/
theorem C3_request_error_paths_witness :
    (MsgPackProtocol.request []
        ⟨true, ⟨[("boom", fun _ => Except.error (.exc "boom"))]⟩, Option.none, []⟩
        5 "boom" [] =
      ([], ⟨true, ⟨[("boom", fun _ => Except.error (.exc "boom"))]⟩, Option.none, []⟩,
        [MsgPackFrame.response 5 (.str "Exception") PyVal.none], [])) ∧
    (MarshalRPCProtocol.message []
        ⟨true, ⟨[("boom", fun _ => Except.error (.exc "boom"))]⟩, Option.none, []⟩
        (MarshalMsg.call (some 5) "boom" []) = .error (.exc "boom")) ∧
    (MarshalRPCProtocol.message []
        ⟨true, ⟨[("rpc", fun _ => Except.error .rpcError)]⟩, Option.none, []⟩
        (MarshalMsg.call (some 5) "rpc" []) =
      .ok ([], ⟨true, ⟨[("rpc", fun _ => Except.error .rpcError)]⟩, Option.none, []⟩,
        [MarshalRPCProtocol.send_results 5 true (.err .rpcError)], [])) := by
  have h1 := C3_request_error_paths []
      ⟨true, ⟨[("boom", fun _ => Except.error (.exc "boom"))]⟩, Option.none, []⟩
      ⟨true, ⟨[("boom", fun _ => Except.error (.exc "boom"))]⟩, Option.none, []⟩
      5 5 "boom" [] (.exc "boom") rfl rfl
  have h2 := C3_request_error_paths []
      ⟨true, ⟨[("rpc", fun _ => Except.error .rpcError)]⟩, Option.none, []⟩
      ⟨true, ⟨[("rpc", fun _ => Except.error .rpcError)]⟩, Option.none, []⟩
      5 5 "rpc" [] .rpcError rfl rfl
  exact ⟨h1.1, h1.2.2 (by decide), h2.2.1 rfl⟩

/-- **C4** is false of the code: a msgpack inbound notify frame whose
handler raises has its exception propagate out of the notify handler —
`MsgPackProtocol.notify` wraps `dispatcher.call` in no `try` at all, so
nothing is logged and swallowed. -/
theorem C4_counterexample :
    MsgPackProtocol.notify
      ⟨true, ⟨[("boom", fun _ => Except.error (.exc "boom"))]⟩, Option.none, []⟩
      "boom" [] = .error (.exc "boom") := by
  rfl

/-- **C4 amended**: an inbound notify frame invokes
`dispatcher.call(method, params)`, its return value is ignored and no
reply frame is ever sent; but handler errors are not swallowed: the
msgpack variant propagates every exception, and the marshal variant
swallows only `RPCError` while propagating anything else. -/
theorem C4_notify_paths (h : FutureHeap) (s : MsgPackProtocol)
    (m : MarshalRPCProtocol) (method : String) (params : List PyVal) :
    (∀ r, s.dispatch.call method params = .ok r →
      MsgPackProtocol.notify s method params = .ok []) ∧
    (∀ e, s.dispatch.call method params = .error e →
      MsgPackProtocol.notify s method params = .error e) ∧
    (∀ r, m.dispatch.call method params = .ok r →
      MarshalRPCProtocol.message h m (MarshalMsg.call Option.none method params) =
        .ok (h, m, [], [])) ∧
    (m.dispatch.call method params = .error .rpcError →
      MarshalRPCProtocol.message h m (MarshalMsg.call Option.none method params) =
        .ok (h, m, [], [])) ∧
    (∀ e, e ≠ PyErr.rpcError → m.dispatch.call method params = .error e →
      MarshalRPCProtocol.message h m (MarshalMsg.call Option.none method params) =
        .error e) := by
  refine ⟨?_, ?_, ?_, ?_, ?_⟩
  · intro r hr
    simp only [MsgPackProtocol.notify, hr]
  · intro e he
    simp only [MsgPackProtocol.notify, he]
  · intro r hr
    cases r <;> simp only [MarshalRPCProtocol.message, hr]
  · intro hr
    simp only [MarshalRPCProtocol.message, hr]
  · intro e hne he
    simp only [MarshalRPCProtocol.message, he]

/-- Witness for **C4 amended**: a returning handler (nothing sent, value
dropped), a raising handler under msgpack (propagates), the same under
marshal (propagates), and a marshal handler raising `RPCError`
(swallowed, still no reply). -/
theorem C4_notify_paths_witness :
    (MsgPackProtocol.notify
        ⟨true, ⟨[("add", fun _ => Except.ok (.value (.int 5)))]⟩, Option.none, []⟩
        "add" [] = .ok []) ∧
    (MsgPackProtocol.notify
        ⟨true, ⟨[("bad", fun _ => Except.error (.exc "bad"))]⟩, Option.none, []⟩
        "bad" [] = .error (.exc "bad")) ∧
    (MarshalRPCProtocol.message []
        ⟨true, ⟨[("add", fun _ => Except.ok (.value (.int 5)))]⟩, Option.none, []⟩
        (MarshalMsg.call Option.none "add" []) =
      .ok ([], ⟨true, ⟨[("add", fun _ => Except.ok (.value (.int 5)))]⟩, Option.none, []⟩,
        [], [])) ∧
    (MarshalRPCProtocol.message []
        ⟨true, ⟨[("rpc", fun _ => Except.error .rpcError)]⟩, Option.none, []⟩
        (MarshalMsg.call Option.none "rpc" []) =
      .ok ([], ⟨true, ⟨[("rpc", fun _ => Except.error .rpcError)]⟩, Option.none, []⟩,
        [], [])) ∧
    (MarshalRPCProtocol.message []
        ⟨true, ⟨[("bad", fun _ => Except.error (.exc "bad"))]⟩, Option.none, []⟩
        (MarshalMsg.call Option.none "bad" []) = .error (.exc "bad")) := by
  have h1 := C4_notify_paths []
      ⟨true, ⟨[("add", fun _ => Except.ok (.value (.int 5)))]⟩, Option.none, []⟩
      ⟨true, ⟨[("add", fun _ => Except.ok (.value (.int 5)))]⟩, Option.none, []⟩ "add" []
  have h2 := C4_notify_paths []
      ⟨true, ⟨[("bad", fun _ => Except.error (.exc "bad"))]⟩, Option.none, []⟩
      ⟨true, ⟨[("bad", fun _ => Except.error (.exc "bad"))]⟩, Option.none, []⟩ "bad" []
  have h3 := C4_notify_paths []
      ⟨true, ⟨[("rpc", fun _ => Except.error .rpcError)]⟩, Option.none, []⟩
      ⟨true, ⟨[("rpc", fun _ => Except.error .rpcError)]⟩, Option.none, []⟩ "rpc" []
  exact ⟨h1.1 (.value (.int 5)) rfl, h2.2.1 (.exc "bad") rfl,
    h1.2.2.1 (.value (.int 5)) rfl, h3.2.2.2.1 rfl,
    h2.2.2.2.2 (.exc "bad") (by decide) rfl⟩

/-- **C6** is false of the code for the marshal variant:
`begin_notify` on a proxy with `request_num = 0` leaves the proxy with
`request_num = 1` — it allocates a request number for the local Future
even though the frame carries no id and no map entry is made — whereas the
claim says `request_num` is unchanged. -/
theorem C6_counterexample :
    ((MarshalRPCProxy.begin_notify [] ⟨0, [], Option.none⟩ "ping" []).toOption.map
      (fun r => r.2.1.request_num) = some 1) ∧
    ¬ ((MarshalRPCProxy.begin_notify [] ⟨0, [], Option.none⟩ "ping" []).toOption.map
      (fun r => r.2.1.request_num) = some 0) := by
  exact ⟨rfl, by decide⟩

/-- **C6 amended**: `notify` sends exactly one one-way frame and adds no
entry to the in-flight requests map; the msgpack proxy is left entirely
unchanged, while the marshal `begin_notify` does advance `request_num` by
one (the allocated number is only stored on the discarded local Future —
the frame itself carries no id). -/
theorem C6_notify_frame_effect (h : FutureHeap) (p : MarshalRPCProxy)
    (q : MsgPackProxy) (method : String) (args : List PyVal) :
    (MarshalRPCProxy.begin_notify h p method args =
      .ok (h ++ [FutureState.result PyVal.none],
        { p with request_num := p.request_num + 1 },
        [MarshalMsg.call Option.none method args], h.length)) ∧
    (MsgPackProxy.notify q method args = (q, [MsgPackFrame.notify method args])) := by
  constructor
  · simp only [MarshalRPCProxy.begin_notify, futureAlloc, setFutureResult_concat]
  · rfl

/-- **C7** is false of the code: a spurious inbound response — its id
absent from the in-flight map — is not dropped silently; the lookup
`self.requests[...]` raises `KeyError` in both codec variants. -/
theorem C7_counterexample :
    (MsgPackProxy.response [] ⟨0, [], Option.none⟩ 0 PyVal.none PyVal.none =
      .error .keyError) ∧
    (MarshalRPCProxy.results [] ⟨0, [], Option.none⟩ (some 0) PyVal.none PyVal.none =
      .error .keyError) := by
  exact ⟨rfl, rfl⟩

/-- **C7 amended**: an inbound response whose id is absent from the
in-flight map raises `KeyError` (it is not silently dropped); when the id
is present, exactly that Future is resolved with the result or failed
(msgpack with the raw error payload, marshal with a fresh `RPCError`),
every other heap cell is untouched, and the map entry is removed so that
the id no longer resolves. -/
theorem C7_response_matching (h : FutureHeap) (p : MsgPackProxy)
    (q : MarshalRPCProxy) (msgid : Nat) (error result : PyVal) :
    (p.requests.lookup msgid = Option.none →
      MsgPackProxy.response h p msgid error result = .error .keyError) ∧
    (∀ fid, p.requests.lookup msgid = some fid → h[fid]? = some .pending →
      MsgPackProxy.response h p msgid error result =
        .ok ((if error.truthy then h.set fid (.failure error)
              else h.set fid (.result result)),
          { p with requests := dictDel p.requests msgid })) ∧
    (q.requests.lookup msgid = Option.none →
      MarshalRPCProxy.results h q (some msgid) error result = .error .keyError) ∧
    (MarshalRPCProxy.results h q Option.none error result = .error .keyError) ∧
    (∀ fid, q.requests.lookup msgid = some fid → h[fid]? = some .pending →
      MarshalRPCProxy.results h q (some msgid) error result =
        .ok ((if error.truthy then h.set fid (.failure (.err .rpcError))
              else h.set fid (.result result)),
          { q with requests := dictDel q.requests msgid })) ∧
    (∀ fid x, ∀ j, j ≠ fid → (h.set fid x)[j]? = h[j]?) ∧
    ((dictDel p.requests msgid).lookup msgid = Option.none) := by
  refine ⟨?_, ?_, ?_, ?_, ?_, ?_, ?_⟩
  · intro hl
    simp only [MsgPackProxy.response, hl]
  · intro fid hl hf
    cases he : error.truthy with
    | true => simp [MsgPackProxy.response, hl, he, setFutureException, hf]
    | false => simp [MsgPackProxy.response, hl, he, setFutureResult, hf]
  · intro hl
    simp only [MarshalRPCProxy.results, Option.bind, hl, Option.map]
  · rfl
  · intro fid hl hf
    cases he : error.truthy with
    | true =>
      simp [MarshalRPCProxy.results, Option.bind, hl, Option.map, he,
        setFutureException, hf]
    | false =>
      simp [MarshalRPCProxy.results, Option.bind, hl, Option.map, he,
        setFutureResult, hf]
  · exact fun fid x j hj => List.getElem?_set_ne (Ne.symm hj)
  · exact lookup_dictDel p.requests msgid

/-- Witness for **C7 amended**: a one-entry map resolves its Future on a
success response and removes the entry; the empty map raises `KeyError`. -/
theorem C7_response_matching_witness :
    (MsgPackProxy.response [FutureState.pending] ⟨1, [(0, 0)], Option.none⟩ 0
        PyVal.none (PyVal.int 5) =
      .ok ([FutureState.result (PyVal.int 5)], ⟨1, [], Option.none⟩)) ∧
    (MsgPackProxy.response [FutureState.pending] ⟨1, [], Option.none⟩ 0
        PyVal.none (PyVal.int 5) = .error .keyError) ∧
    (MarshalRPCProxy.results [FutureState.pending] ⟨1, [(0, 0)], Option.none⟩ (some 0)
        (PyVal.str "err") PyVal.none =
      .ok ([FutureState.failure (.err .rpcError)], ⟨1, [], Option.none⟩)) := by
  have h1 := C7_response_matching [FutureState.pending] ⟨1, [(0, 0)], Option.none⟩
      ⟨1, [(0, 0)], Option.none⟩ 0 PyVal.none (PyVal.int 5)
  have h2 := C7_response_matching [FutureState.pending] ⟨1, [], Option.none⟩
      ⟨1, [], Option.none⟩ 0 PyVal.none (PyVal.int 5)
  have h3 := C7_response_matching [FutureState.pending] ⟨1, [(0, 0)], Option.none⟩
      ⟨1, [(0, 0)], Option.none⟩ 0 (PyVal.str "err") PyVal.none
  exact ⟨h1.2.1 0 rfl rfl, h2.1 rfl, h3.2.2.2.2.1 0 rfl rfl⟩

/-- **C8**: each of the three classes evaluates its `dispatch=Dispatch()`
default once at class definition, so every instance of that class built
without an explicit dispatch argument holds a reference to the same
`Dispatch` object: a method registered through one such instance's
dispatcher is immediately callable through every other's.  (The three
classes have three *distinct* default objects — the sharing is
per class.) -/
theorem C8_default_dispatch_shared (fn : Handler) (name : String)
    (args : List PyVal) :
    (DispatchHeap.call
        (rpcModuleDispatchHeap.add (RPCProtocolFactory.initDispatch Option.none) fn name)
        (RPCProtocolFactory.initDispatch Option.none) name args = fn args) ∧
    (DispatchHeap.call
        (rpcModuleDispatchHeap.add (MarshalRPCProtocol.initDispatch Option.none) fn name)
        (MarshalRPCProtocol.initDispatch Option.none) name args = fn args) ∧
    (DispatchHeap.call
        (rpcModuleDispatchHeap.add (MsgPackProtocol.initDispatch Option.none) fn name)
        (MsgPackProtocol.initDispatch Option.none) name args = fn args) ∧
    (MarshalRPCProtocol.initDispatch Option.none ≠ RPCProtocolFactory.initDispatch Option.none) ∧
    (MsgPackProtocol.initDispatch Option.none ≠ RPCProtocolFactory.initDispatch Option.none) := by
  refine ⟨?_, ?_, ?_, by decide, by decide⟩ <;>
    simp [DispatchHeap.call, DispatchHeap.add, rpcModuleDispatchHeap,
      RPCProtocolFactory.initDispatch, MarshalRPCProtocol.initDispatch,
      MsgPackProtocol.initDispatch, RPCProtocolFactory.defaultDispatch,
      MarshalRPCProtocol.defaultDispatch, MsgPackProtocol.defaultDispatch,
      Dispatch.add, Dispatch.call, dictInsert, List.lookup]

/-- **C5** is false of the code in its connection-loss part: after
`connection_made` and then `connection_lost`, the protocol still holds its
(now stale) proxy, so a *new* `proxy()` request returns a Future resolved
with that proxy — it does not fail with *ConnectionLost*. -/
theorem C5_counterexample :
    (MarshalRPCProtocol.connection_made [] ⟨true, ⟨[]⟩, Option.none, []⟩ =
      .ok ([], ⟨true, ⟨[]⟩, some ⟨0, [], Option.none⟩, []⟩)) ∧
    (MarshalRPCProtocol.connection_lost [] ⟨[0], 1⟩ 0
        ⟨true, ⟨[]⟩, some ⟨0, [], Option.none⟩, []⟩ =
      .ok ([], ⟨[], 1⟩, ⟨false, ⟨[]⟩, some ⟨0, [], Option.none⟩, []⟩)) ∧
    (MarshalRPCProtocol.proxy [] ⟨false, ⟨[]⟩, some ⟨0, [], Option.none⟩, []⟩ =
      .ok ([FutureState.result PyVal.proxyObj],
        ⟨false, ⟨[]⟩, some ⟨0, [], Option.none⟩, [0]⟩, 0)) ∧
    (FutureState.result PyVal.proxyObj ≠ FutureState.failure (.err .connectionLost)) := by
  exact ⟨rfl, rfl, rfl, by decide⟩

/-- **C5 amended**: `proxy()` always appends its fresh Future to the
pending-waiter list; when the Proxy is already built the Future is
additionally resolved with it at once, otherwise it stays pending and
`connection_made()` resolves every pending waiter exactly once (leaving
all other Futures untouched); after a connection loss the proxy reference
survives, so a new `proxy()` request does not fail with *ConnectionLost* —
it returns a Future resolved with the stale Proxy. -/
theorem C5_proxy_availability (h : FutureHeap) (f : RPCProtocolFactory)
    (selfId : Nat) (s : MarshalRPCProtocol) (p : MarshalRPCProxy) :
    (s.proxyObj = some p →
      MarshalRPCProtocol.proxy h s =
        .ok (h ++ [FutureState.result PyVal.proxyObj],
          { s with proxy_futures := s.proxy_futures ++ [h.length] }, h.length)) ∧
    (s.proxyObj = Option.none →
      MarshalRPCProtocol.proxy h s =
        .ok (h ++ [FutureState.pending],
          { s with proxy_futures := s.proxy_futures ++ [h.length] }, h.length)) ∧
    (s.proxy_futures.Nodup →
      (∀ fid ∈ s.proxy_futures, h[fid]? = some FutureState.pending) →
      ∃ h', MarshalRPCProtocol.connection_made h s =
          .ok (h', { s with proxyObj := some ⟨0, [], Option.none⟩ }) ∧
        (∀ fid ∈ s.proxy_futures, h'[fid]? = some (FutureState.result PyVal.proxyObj)) ∧
        (∀ j, j ∉ s.proxy_futures → h'[j]? = h[j]?)) ∧
    (s.factoryRef = true → s.proxyObj = some p →
      MarshalRPCProtocol.connection_lost h f selfId s =
        .ok (h, f.lost_connection selfId, { s with factoryRef := false }) ∧
      MarshalRPCProtocol.proxy h { s with factoryRef := false } =
        .ok (h ++ [FutureState.result PyVal.proxyObj],
          { s with factoryRef := false,
                   proxy_futures := s.proxy_futures ++ [h.length] }, h.length)) := by
  have ha : ∀ t : MarshalRPCProtocol, t.proxyObj = some p →
      MarshalRPCProtocol.proxy h t =
        .ok (h ++ [FutureState.result PyVal.proxyObj],
          { t with proxy_futures := t.proxy_futures ++ [h.length] }, h.length) := by
    intro t ht
    simp only [MarshalRPCProtocol.proxy, futureAlloc, ht, setFutureResult_concat]
    rfl
  refine ⟨ha s, ?_, ?_, ?_⟩
  · intro hs
    simp only [MarshalRPCProtocol.proxy, futureAlloc, hs]
    rfl
  · intro hnd hp
    obtain ⟨h', he, hres, hunch⟩ :=
      foldlM_setFutureResult PyVal.proxyObj s.proxy_futures h hnd hp
    refine ⟨h', ?_, hres, hunch⟩
    simp only [MarshalRPCProtocol.connection_made, he]
    rfl
  · intro hfact hs
    constructor
    · unfold MarshalRPCProtocol.connection_lost
      rw [hfact]
      rfl
    · exact ha { s with factoryRef := false } hs

/-- Witness for **C5 amended**: the built-proxy path, the pending-waiter
path resolved by `connection_made`, and the post-loss path, each at a
concrete input. -/
theorem C5_proxy_availability_witness :
    (MarshalRPCProtocol.proxy [] ⟨true, ⟨[]⟩, some ⟨0, [], Option.none⟩, []⟩ =
      .ok ([FutureState.result PyVal.proxyObj],
        ⟨true, ⟨[]⟩, some ⟨0, [], Option.none⟩, [0]⟩, 0)) ∧
    (MarshalRPCProtocol.proxy [] ⟨true, ⟨[]⟩, Option.none, []⟩ =
      .ok ([FutureState.pending], ⟨true, ⟨[]⟩, Option.none, [0]⟩, 0)) ∧
    (∃ h', MarshalRPCProtocol.connection_made [FutureState.pending]
          ⟨true, ⟨[]⟩, Option.none, [0]⟩ =
        .ok (h', ⟨true, ⟨[]⟩, some ⟨0, [], Option.none⟩, [0]⟩) ∧
      (∀ fid ∈ [0], h'[fid]? = some (FutureState.result PyVal.proxyObj)) ∧
      (∀ j, j ∉ [0] → h'[j]? = [FutureState.pending][j]?)) ∧
    (MarshalRPCProtocol.connection_lost [] ⟨[5], 6⟩ 5
        ⟨true, ⟨[]⟩, some ⟨0, [], Option.none⟩, []⟩ =
      .ok ([], RPCProtocolFactory.lost_connection ⟨[5], 6⟩ 5,
        ⟨false, ⟨[]⟩, some ⟨0, [], Option.none⟩, []⟩) ∧
     MarshalRPCProtocol.proxy [] ⟨false, ⟨[]⟩, some ⟨0, [], Option.none⟩, []⟩ =
      .ok ([FutureState.result PyVal.proxyObj],
        ⟨false, ⟨[]⟩, some ⟨0, [], Option.none⟩, [0]⟩, 0)) := by
  have h1 := C5_proxy_availability [] ⟨[5], 6⟩ 5
      ⟨true, ⟨[]⟩, some ⟨0, [], Option.none⟩, []⟩ ⟨0, [], Option.none⟩
  have h2 := C5_proxy_availability [] ⟨[5], 6⟩ 5
      ⟨true, ⟨[]⟩, Option.none, []⟩ ⟨0, [], Option.none⟩
  have h3 := C5_proxy_availability [FutureState.pending] ⟨[5], 6⟩ 5
      ⟨true, ⟨[]⟩, Option.none, [0]⟩ ⟨0, [], Option.none⟩
  exact ⟨h1.1 rfl, h2.2.1 rfl,
    h3.2.2.1 (by decide) (by decide),
    h1.2.2.2 rfl rfl⟩

end Whizzer
